import Mathlib

/-!
Verification of the tool-calling orchestration loop of
`src/routes/message_routes.py` (mundi.ai), against its natural-language
specification.  The Python source is shallowly embedded: database tables are
in-memory lists, Redis keys are booleans, and calls to external services
(language model, QGIS remote compute, DuckDB, the user's PostGIS database,
OpenStreetMap download, style validation) are supplied by an `Env` of
outcome oracles, one outcome per tool-call identifier, matching exactly the
outcome shapes the source distinguishes (HTTP status codes, caught
exception classes, result payloads).
-/

namespace Mundi

/-! ## Data model

`map_layers`, `user_mundiai_maps`, `project_postgres_connections`,
`layer_styles` and `map_layer_styles` rows, restricted to the columns the
orchestration code reads or writes. -/

structure Layer where
  layer_id : String
  owner_uuid : String
  name : Option String
  s3_key : Option String
deriving DecidableEq

structure MapRow where
  id : String
  owner_uuid : String
  project_id : String
  layers : Option (List String)
  softDeleted : Bool
deriving DecidableEq

structure PgConn where
  id : String
  user_id : String
deriving DecidableEq

structure StyleRow where
  style_id : String
  layer_id : String
deriving DecidableEq

/-- A tool result as appended to `chat_completion_messages`: the source
builds a JSON dict whose `status` field is `"success"`, `"error"`, or (for
`add_layer_to_map`) a free-form message; the remaining payload fields are
folded into `info`. -/
structure ToolRes where
  status : String
  info : String
deriving DecidableEq

/-- The JSON argument object of a tool invocation, as a record of the
fields the dispatch code reads with `tool_args.get(...)` (absent key =
`none`).  `gpArgs` holds the free-form key/value arguments of a
geoprocessing invocation. -/
structure ToolArgs where
  layer_id : Option String := none
  new_name : Option String := none
  postgis_connection_id : Option String := none
  sql_query : Option String := none
  query : Option String := none
  layer_name : Option String := none
  layer_ids : Option (List String) := none
  head_n_rows : Option Nat := none
  maplibre_json_layers_str : Option String := none
  style_id : Option String := none
  tags : Option String := none
  bbox : Option (List Rat) := none
  new_layer_name : Option String := none
  bounds : Option (List Rat) := none
  zoom_description : Option String := none
  gpArgs : List (String × String) := []
deriving DecidableEq

/-- One tool invocation emitted by the model: invocation id, function
name, JSON arguments. -/
structure ToolCall where
  id : String
  name : String
  args : ToolArgs
deriving DecidableEq

/-- One row of `chat_completion_messages`, by payload kind. -/
inductive Msg where
  | system (content : String)
  | user (content : String)
  | assistant (content : String) (tool_calls : List ToolCall)
  | tool (tool_call_id : String) (result : ToolRes)
deriving DecidableEq

/-- The relational tables the tool handlers read and write.  The message
log is kept separately in `Db`: no tool handler touches it other than by
appending its own result, which `dispatchCalls` performs. -/
structure Data where
  mapLayers : List Layer
  maps : List MapRow
  pgConnections : List PgConn
  layerStyles : List StyleRow
  mapLayerStyles : List (String × String)
deriving DecidableEq

structure Db where
  data : Data
  messages : List Msg
deriving DecidableEq

/-- The two Redis keys of one map: `map_lock:{map_id}` and
`messages:{map_id}:cancelled` (present/absent). -/
structure Rds where
  mapLock : Bool
  cancelled : Bool
deriving DecidableEq

/-! ## String helpers from the source -/

/-- `is_layer_id` (message_routes.py line 198): `s[0] == "L" and len(s) == 12`.
The caller guards against the empty string, on which the Python code raises
`IndexError` (see `resolveInputs`). -/
def is_layer_id (s : String) : Bool :=
  s.front == 'L' && s.length == 12

/-- Python truthiness of an optional string: `None` and `""` are falsy. -/
def falsy : Option String → Bool
  | none => true
  | some s => s.isEmpty

/-- Python truthiness of an optional list: `None` and `[]` are falsy. -/
def falsyList : Option (List Rat) → Bool
  | none => true
  | some l => l.isEmpty

def isWordChar (c : Char) : Bool :=
  c.isAlphanum || c == '_'

def digitsToNat (ds : List Char) : Nat :=
  ds.foldl (fun acc d => acc * 10 + (d.toNat - 48)) 0

/-- Attempt to match `LIMIT\s+(\d+)\b` (case-insensitive) at the head of
`cs`; the caller has already checked the `\b` before `LIMIT`. -/
def tryMatchLimit (cs : List Char) : Option Nat :=
  match cs with
  | c1 :: c2 :: c3 :: c4 :: c5 :: rest =>
    if c1.toLower == 'l' && c2.toLower == 'i' && c3.toLower == 'm'
        && c4.toLower == 'i' && c5.toLower == 't' then
      let ws := rest.takeWhile (fun c => c.isWhitespace)
      let afterWs := rest.dropWhile (fun c => c.isWhitespace)
      if ws.isEmpty then none
      else
        let ds := afterWs.takeWhile (fun c => c.isDigit)
        let afterDs := afterWs.dropWhile (fun c => c.isDigit)
        if ds.isEmpty then none
        else
          match afterDs with
          | [] => some (digitsToNat ds)
          | c :: _ => if isWordChar c then none else some (digitsToNat ds)
    else none
  | _ => none

/-- Left-to-right scan for `\bLIMIT\s+(\d+)\b`; `prevWord` records whether
the previous character is a word character (for the leading `\b`). -/
def limitSearch (prevWord : Bool) : List Char → Option Nat
  | [] => none
  | c :: cs =>
    match (if prevWord then none else tryMatchLimit (c :: cs)) with
    | some n => some n
    | none => limitSearch (isWordChar c) cs

/-- `re.search(r"\bLIMIT\s+(\d+)\b", q, re.IGNORECASE)` of
message_routes.py lines 1420-1424, returning the captured number. -/
def findLimit (q : String) : Option Nat :=
  limitSearch false q.data

def lookupAssoc {α : Type} (l : List (String × α)) (k : String) : Option α :=
  (l.find? (fun p => p.1 == k)).map Prod.snd

/-- Tab-separated table rendering of `query_postgis_database` results
(message_routes.py lines 1493-1515): header line of the first row's keys,
then one line per row with `str(row.get(h, ""))` per header. -/
def tableFormat (rows : List (List (String × String))) : String :=
  match rows with
  | [] => "No results"
  | first :: _ =>
    let headers := first.map Prod.fst
    let lines := rows.map (fun r =>
      String.intercalate "\t" (headers.map (fun h => (lookupAssoc r h).getD "")))
    String.intercalate "\n" (String.intercalate "\t" headers :: lines)

/-- Formatting of a non-empty PostGIS result set (lines 1482-1515): a
single-row single-column result renders as `Query result: <value>`,
anything else as a tab-separated table. -/
def formatPgRows (rows : List (List (String × String))) : String :=
  match rows with
  | [r] =>
    if r.length == 1 then
      "Query result: " ++ ((r.head?.map Prod.snd).getD "")
    else tableFormat rows
  | _ => tableFormat rows

/-- Non-overlapping substring count, `str.count` of Python
(message_routes.py lines 280-281 count `"vector"`/`"raster"` in a tool
description). -/
def countOccs (needle : List Char) : List Char → Nat
  | [] => 0
  | c :: cs =>
    if needle.isPrefixOf (c :: cs) then
      1 + countOccs needle (List.drop (needle.length - 1) cs)
    else countOccs needle cs
termination_by l => l.length
decreasing_by
  · simp only [List.length_drop, List.length_cons]
    omega
  · simp only [List.length_cons]
    omega

/-! ## External-service outcomes

Each inductive mirrors the outcomes the source distinguishes for one
external call: HTTP status / body for the QGIS service, the exception
classes each `except` clause catches, and opaque successful payloads. -/

/-- Outcome of the `new_layer_from_postgis` body wrapped in
`try ... except Exception` (lines 810-1052): either some exception from the
user's PostGIS database, or success carrying the detected geometry type and
whether default-style generation succeeded. -/
inductive NewLayerOutcome where
  | raises (msg : String)
  | ok (geometry_type : Option String) (styleOk : Bool)
deriving DecidableEq

/-- Outcome of `execute_duckdb_query` plus CSV rendering (lines 1146-1162):
the CSV text, or an `HTTPException`, or any other exception. -/
inductive DuckOutcome where
  | ok (csv : String) (rowCount : Nat)
  | httpExc (detail : String)
  | exc (msg : String)
deriving DecidableEq

/-- Outcome of the `create_layer_style` body (lines 1209-1281): the
exception classes the source catches (`json.JSONDecodeError`, the two
`ValueError` raises, `StyleValidationError` from style verification), or
a valid style. -/
inductive StyleOutcome where
  | jsonDecodeError (msg : String)
  | notAList (msg : String)
  | elemNotDict (msg : String)
  | validationFails (msg : String)
  | valid
deriving DecidableEq

/-- Outcome of running the user's PostGIS query (lines 1459-1540): the
returned rows as ordered key/value records, or any exception. -/
inductive PgqOutcome where
  | rows (rs : List (List (String × String)))
  | exc (msg : String)
deriving DecidableEq

/-- Outcome of the QGIS processing HTTP call (lines 316-346): an exception
from the transport, or a response with status code and the per-output
`upload_results[..]["uploaded"]` flags. -/
inductive QgisOutcome where
  | raises (msg : String)
  | resp (statusCode : Nat) (uploaded : List (String × Bool))
deriving DecidableEq

/-- Outcome of `download_from_openstreetmap` (lines 1343-1363): an
exception, or a result dict carrying a status string and the uploaded
layers as (geometry_type, layer_id) pairs. -/
inductive OsmOutcome where
  | exc (msg : String)
  | res (status : String) (uploadedLayers : List (String × String))
deriving DecidableEq

/-- One model response: an exception from
`client.chat.completions.create`, or an assistant message with content and
zero or more tool invocations. -/
inductive ModelResp where
  | failure
  | ok (content : String) (tool_calls : List ToolCall)

/-- The ambient context and external world of one orchestration run:
caller and map identity, the per-round model responses, externally
arriving cancel requests, identifier generation, and one outcome oracle
per external service keyed by tool-call id. -/
structure Env where
  userId : String
  mapId : String
  modelResp : Nat → ModelResp
  cancelBefore : Nat → Bool
  hasOsmKey : Bool
  gpToolNames : List String
  gpToolDescr : String → String
  genLayerId : String → String
  genStyleId : String → String
  genOutputLayerId : String → String
  uploadLayerId : String → String
  newLayerOutcome : String → NewLayerOutcome
  duckOutcome : String → DuckOutcome
  styleOutcome : String → StyleOutcome
  pgqOutcome : String → PgqOutcome
  qgisOutcome : String → QgisOutcome
  osmOutcome : String → OsmOutcome

/-! ## Shared database mutations -/

/-- Row-level effect of the guarded `array_append` UPDATE on
`user_mundiai_maps` (lines 1028-1039 and 1091-1102): the row is updated
only when `id = $2 AND (layers IS NULL OR NOT ($1 = ANY(layers)))`, and
the CASE turns a NULL array into `ARRAY[$1]` and otherwise appends. -/
def attachLayerUpd (mid lid : String) (m : MapRow) : MapRow :=
  if m.id == mid && (m.layers.isNone || !((m.layers.getD []).contains lid)) then
    { m with layers := some ((m.layers.getD []) ++ [lid]) }
  else m

/-- The guarded `array_append` UPDATE applied to the table. -/
def mapsAppendIfAbsent (d : Data) (mid lid : String) : Data :=
  { d with maps := d.maps.map (attachLayerUpd mid lid) }

/-- `SELECT layer_id FROM map_layers WHERE layer_id = $1 AND owner_uuid = $2`
with a possibly-NULL `$1`. -/
def findOwnedLayer (d : Data) (uid : String) (lid? : Option String) : Option Layer :=
  match lid? with
  | none => none
  | some lid => d.mapLayers.find? (fun l => l.layer_id == lid && l.owner_uuid == uid)

/-- `SELECT connection_uri FROM project_postgres_connections WHERE id = $1
AND user_id = $2`. -/
def findOwnedConn (d : Data) (uid : String) (cid? : Option String) : Option PgConn :=
  match cid? with
  | none => none
  | some cid => d.pgConnections.find? (fun c => c.id == cid && c.user_id == uid)

def optStr : Option String → String
  | none => "None"
  | some s => s

/-! ## Tool handlers

One function per branch of the dispatch `if`-chain (lines 776-1631). Each
returns the tool result and the updated tables; `dispatchCalls` appends
the result to the message log, which is what every branch of the source
does (at each of its exit points) via `add_chat_completion_message`. -/

/-- `new_layer_from_postgis` branch (lines 776-1060). -/
def runNewLayerFromPostgis (env : Env) (tc : ToolCall) (d : Data) : ToolRes × Data :=
  if falsy tc.args.postgis_connection_id || falsy tc.args.query then
    (⟨"error", "Missing required parameters (postgis_connection_id or query)."⟩, d)
  else
    match findOwnedConn d env.userId tc.args.postgis_connection_id with
    | none =>
      (⟨"error", "PostGIS connection " ++ optStr tc.args.postgis_connection_id
          ++ " not found or you do not have access to it."⟩, d)
    | some _ =>
      match env.newLayerOutcome tc.id with
      | .raises m => (⟨"error", "Query validation failed: " ++ m⟩, d)
      | .ok geometry_type styleOk =>
        let layer_id := env.genLayerId tc.id
        let d := { d with mapLayers := d.mapLayers ++
          [⟨layer_id, env.userId, tc.args.layer_name, none⟩] }
        let d :=
          if geometry_type.isSome && styleOk then
            let style_id := env.genStyleId tc.id
            { d with layerStyles := d.layerStyles ++ [⟨style_id, layer_id⟩],
                     mapLayerStyles := d.mapLayerStyles ++ [(layer_id, style_id)] }
          else d
        let d := mapsAppendIfAbsent d env.mapId layer_id
        (⟨"success", "PostGIS layer created successfully with ID: " ++ layer_id
            ++ " and added to map"⟩, d)

/-- `add_layer_to_map` branch (lines 1061-1115): ownership check, then an
unconditional rename (`UPDATE map_layers SET name = $1 WHERE layer_id = $2`)
followed by the guarded append to the map's layer array. -/
def runAddLayerToMap (env : Env) (tc : ToolCall) (d : Data) : ToolRes × Data :=
  match findOwnedLayer d env.userId tc.args.layer_id with
  | none =>
    (⟨"error", "Layer ID " ++ optStr tc.args.layer_id
        ++ " not found or you do not have permission to use it."⟩, d)
  | some l =>
    let d := { d with mapLayers := d.mapLayers.map (fun x =>
        if x.layer_id == l.layer_id then { x with name := tc.args.new_name } else x) }
    let d := mapsAppendIfAbsent d env.mapId l.layer_id
    (⟨"Layer " ++ optStr tc.args.new_name ++ " (ID: " ++ l.layer_id
        ++ ") added to map " ++ env.mapId ++ ".",
      "layer added"⟩, d)

/-- Body of the `query_duckdb_sql` branch after argument extraction
(lines 1123-1193). -/
def runQueryDuckdbBody (env : Env) (tc : ToolCall) (layer_id? : Option String)
    (d : Data) : ToolRes × Data :=
  match findOwnedLayer d env.userId layer_id? with
  | none =>
    (⟨"error", "Layer ID " ++ optStr layer_id?
        ++ " not found or you do not have permission to access it."⟩, d)
  | some _ =>
    match env.duckOutcome tc.id with
    | .httpExc detail => (⟨"error", "DuckDB query error: " ++ detail⟩, d)
    | .exc m => (⟨"error", "Error executing SQL query: " ++ m⟩, d)
    | .ok csv _ =>
      if csv.length > 25000 then
        (⟨"error", "DuckDB CSV result too large"⟩, d)
      else
        (⟨"success", csv⟩, d)

/-- Exceptions that escape the tool-dispatch loop: the
`HTTPException(400)` raised for a tool name outside the dispatch chain
(line 1631), and the `IndexError` from
`tool_args.get("layer_ids", [None])[0]` on an empty list (line 1117). -/
inductive PyExc where
  | httpBadRequest
  | indexError
deriving DecidableEq

/-- `query_duckdb_sql` branch (lines 1116-1193).
`tool_args.get("layer_ids", [None])[0]` yields `None` when the key is
absent, the first element when the list is non-empty, and raises an
uncaught `IndexError` when the list is present but empty. -/
def runQueryDuckdb (env : Env) (tc : ToolCall) (d : Data) :
    Except PyExc (ToolRes × Data) :=
  if tc.args.layer_ids = some [] then
    .error .indexError
  else
    let layer_id? : Option String :=
      match tc.args.layer_ids with
      | some (x :: _) => some x
      | _ => none
    .ok (runQueryDuckdbBody env tc layer_id? d)

/-- `create_layer_style` branch (lines 1194-1289). -/
def runCreateLayerStyle (env : Env) (tc : ToolCall) (d : Data) : ToolRes × Data :=
  if falsy tc.args.layer_id || falsy tc.args.maplibre_json_layers_str then
    (⟨"error", "Missing required parameters (layer_id or maplibre_json_layers_str)."⟩, d)
  else
    let style_id := env.genStyleId tc.id
    match env.styleOutcome tc.id with
    | .jsonDecodeError m => (⟨"error", "Invalid JSON format: " ++ m⟩, d)
    | .notAList m => (⟨"error", m⟩, d)
    | .elemNotDict m => (⟨"error", m⟩, d)
    | .validationFails m => (⟨"error", "Style validation failed: " ++ m⟩, d)
    | .valid =>
      (⟨"success", "style " ++ style_id⟩,
        { d with layerStyles := d.layerStyles ++
            [⟨style_id, (tc.args.layer_id).getD ""⟩] })

/-- `set_active_style` branch (lines 1290-1331): upsert into
`map_layer_styles` (`INSERT ... ON CONFLICT (map_id, layer_id) DO UPDATE`). -/
def runSetActiveStyle (_env : Env) (tc : ToolCall) (d : Data) : ToolRes × Data :=
  if falsy tc.args.layer_id || falsy tc.args.style_id then
    (⟨"error", "Missing required parameters (layer_id, or style_id)."⟩, d)
  else
    let lid := (tc.args.layer_id).getD ""
    let sid := (tc.args.style_id).getD ""
    let mls :=
      if d.mapLayerStyles.any (fun p => p.1 == lid) then
        d.mapLayerStyles.map (fun p => if p.1 == lid then (lid, sid) else p)
      else d.mapLayerStyles ++ [(lid, sid)]
    (⟨"success", "Style " ++ sid ++ " set as active for layer " ++ lid
        ++ ", user can now see it"⟩,
      { d with mapLayerStyles := mls })

/-- `download_from_openstreetmap` branch (lines 1332-1388).  The import
logic itself lives outside this file's sources; its outcome dict is
supplied by the environment.  After the `try`, the source appends
`kue_instructions` whenever the result has `status == "success"` and a
non-empty `uploaded_layers`. -/
def runDownloadOsm (env : Env) (tc : ToolCall) (d : Data) : ToolRes × Data :=
  let base : ToolRes :=
    if falsy tc.args.tags || falsyList tc.args.bbox || falsy tc.args.new_layer_name then
      ⟨"error", "Missing required parameters for OpenStreetMap download."⟩
    else
      match env.osmOutcome tc.id with
      | .exc m => ⟨"error", "Error downloading from OpenStreetMap: " ++ m⟩
      | .res status uploadedLayers =>
        ⟨status, String.intercalate ", " (uploadedLayers.map Prod.snd)⟩
  let withInstructions :=
    if base.status == "success" && !base.info.isEmpty then
      { base with info := base.info ++ "; kue_instructions" }
    else base
  (withInstructions, d)

/-- `query_postgis_database` branch (lines 1389-1548): ownership check on
the connection, then the LIMIT-clause validation, then execution with
oversize check. -/
def runQueryPostgis (env : Env) (tc : ToolCall) (d : Data) : ToolRes × Data :=
  if falsy tc.args.postgis_connection_id || falsy tc.args.sql_query then
    (⟨"error", "Missing required parameters (postgis_connection_id or sql_query)"⟩, d)
  else
    match findOwnedConn d env.userId tc.args.postgis_connection_id with
    | none =>
      (⟨"error", "PostGIS connection " ++ optStr tc.args.postgis_connection_id
          ++ " not found or you do not have access to it."⟩, d)
    | some _ =>
      let limited_query := ((tc.args.sql_query).getD "").trim
      match findLimit limited_query with
      | none =>
        (⟨"error", "Query must include a LIMIT clause with a value less than 1000"⟩, d)
      | some limit_value =>
        if limit_value > 1000 then
          (⟨"error", "LIMIT value " ++ toString limit_value
              ++ " exceeds maximum allowed limit of 1000"⟩, d)
        else
          match env.pgqOutcome tc.id with
          | .exc m => (⟨"error", "PostgreSQL query error: " ++ m⟩, d)
          | .rows [] =>
            (⟨"success", "Query executed successfully but returned no rows"⟩, d)
          | .rows rs =>
            let result_text := formatPgRows rs
            if result_text.length > 25000 then
              (⟨"error", "Query result too large: " ++ toString result_text.length
                  ++ " characters exceeds 25,000 character limit."⟩, d)
            else
              (⟨"success", result_text⟩, d)

/-- `zoom_to_bounds` branch (lines 1549-1615): pure validation of the
bounding box; the zoom itself is an ephemeral notification. -/
def runZoomToBounds (_env : Env) (tc : ToolCall) (d : Data) : ToolRes × Data :=
  match tc.args.bounds with
  | none =>
    (⟨"error", "Invalid bounds. Must be an array of 4 numbers [west, south, east, north]"⟩, d)
  | some bs =>
    match bs with
    | [west, south, east, north] =>
      if west ≥ east || south ≥ north then
        (⟨"error", "Invalid bounds: west must be < east and south must be < north"⟩, d)
      else if !((-180 ≤ west && west ≤ 180) && (-180 ≤ east && east ≤ 180)
          && (-90 ≤ south && south ≤ 90) && (-90 ≤ north && north ≤ 90)) then
        (⟨"error", "Bounds must be in valid WGS84 range"⟩, d)
      else
        (⟨"success", "zoomed"⟩, d)
    | _ =>
      (⟨"error", "Invalid bounds. Must be an array of 4 numbers [west, south, east, north]"⟩, d)

/-! ## Geoprocessing (remote delegation) -/

/-- The declared output parameters of a geoprocessing run: the source
builds `output_layer_mappings` with the single key `"OUTPUT"`
(lines 269-307). -/
def declaredOutputs : List String := ["OUTPUT"]

/-- The input-resolution loop of `run_geoprocessing_tool`
(lines 229-258): for each argument (tool arguments plus `map_id` and
`user_uuid`), skip `"OUTPUT"`, and for layer-id-shaped values require an
owned `map_layers` row with an `s3_key`.  A missing row raises
`RecoverableToolCallError` and an empty string value raises `IndexError`
in `is_layer_id`; both are caught by the surrounding `except Exception`
and become error results. -/
def resolveInputs (d : Data) (uid : String) : List (String × String) → Except String Unit
  | [] => .ok ()
  | (k, v) :: rest =>
    if k == "OUTPUT" then resolveInputs d uid rest
    else if v == "" then .error "string index out of range"
    else if is_layer_id v then
      match d.mapLayers.find? (fun l => l.layer_id == v && l.owner_uuid == uid) with
      | some l =>
        if l.s3_key.isSome then resolveInputs d uid rest
        else .error ("Layer " ++ v ++ " not found or has no S3 key")
      | none => .error ("Layer " ++ v ++ " not found or has no S3 key")
    else resolveInputs d uid rest

/-- Modelled from the spec: `internal_upload_layer` (defined in
`src/routes/postgres_routes.py`, which is not among the given sources) is
the resource-creation path shared with direct uploads — it persists the
new layer's metadata as a `map_layers` row and, since the geoprocessing
caller passes `add_layer_to_map=True`, attaches the layer to the map's
visible-layer list ("remote job output downloaded and ingested through the
same resource-creation path used by direct uploads"; "a resource must
never be attached before its metadata exists"). -/
def internal_upload_layer (uid mid : String) (newId : String) (layer_name : String)
    (s3key : String) (d : Data) : Data :=
  let d := { d with mapLayers := d.mapLayers ++ [⟨newId, uid, some layer_name, some s3key⟩] }
  mapsAppendIfAbsent d mid newId

/-- `run_geoprocessing_tool` (lines 202-411): resolve layer-shaped inputs
to presigned URLs, pre-generate the output layer id and S3 key, call the
QGIS processing service, and on full success ingest each declared output
through `internal_upload_layer`.  A non-200 response or a missing
per-output uploaded confirmation returns an error without creating any
layer; every exception is caught and returned as an error result. -/
def run_geoprocessing_tool (env : Env) (tc : ToolCall) (d : Data) : ToolRes × Data :=
  let mapped_args := tc.args.gpArgs ++ [("map_id", env.mapId), ("user_uuid", env.userId)]
  match resolveInputs d env.userId mapped_args with
  | .error m =>
    (⟨"error", "Unexpected error running geoprocessing: " ++ m
        ++ ", this is likely a Mundi bug."⟩, d)
  | .ok _ =>
    match d.maps.find? (fun m => m.id == env.mapId) with
    | none =>
      (⟨"error", "Unexpected error running geoprocessing: map row missing, this is likely a Mundi bug."⟩, d)
    | some mrow =>
      let output_layer_id := env.genOutputLayerId tc.id
      let descr := (env.gpToolDescr tc.name).toLower
      let vector_count := countOccs "vector".data descr.data
      let raster_count := countOccs "raster".data descr.data
      let file_extension := if vector_count > raster_count then ".fgb" else ".tif"
      let output_s3_key := "uploads/" ++ env.userId ++ "/" ++ mrow.project_id
        ++ "/" ++ output_layer_id ++ file_extension
      match env.qgisOutcome tc.id with
      | .raises m =>
        (⟨"error", "Unexpected error running geoprocessing: " ++ m
            ++ ", this is likely a Mundi bug."⟩, d)
      | .resp statusCode uploaded =>
        if statusCode ≠ 200 then
          (⟨"error", "QGIS processing failed: " ++ toString statusCode⟩, d)
        else if declaredOutputs.any
            (fun p => ((lookupAssoc uploaded p).getD false) == false) then
          (⟨"error", "QGIS processing completed but output file OUTPUT was not uploaded successfully"⟩, d)
        else
          let filename := output_layer_id ++ file_extension
          let d := declaredOutputs.foldl
            (fun acc _ => internal_upload_layer env.userId env.mapId
              (env.uploadLayerId tc.id) filename output_s3_key acc) d
          (⟨"success", tc.name ++ " completed successfully"⟩, d)

/-! ## Dispatch -/

/-- One step of the dispatch `if`-chain (lines 776-1631), in source
order; a name matching no branch raises `HTTPException(400)`. -/
def execTool (env : Env) (tc : ToolCall) (d : Data) : Except PyExc (ToolRes × Data) :=
  if tc.name = "new_layer_from_postgis" then .ok (runNewLayerFromPostgis env tc d)
  else if tc.name = "add_layer_to_map" then .ok (runAddLayerToMap env tc d)
  else if tc.name = "query_duckdb_sql" then runQueryDuckdb env tc d
  else if tc.name = "create_layer_style" then .ok (runCreateLayerStyle env tc d)
  else if tc.name = "set_active_style" then .ok (runSetActiveStyle env tc d)
  else if tc.name = "download_from_openstreetmap" then .ok (runDownloadOsm env tc d)
  else if tc.name = "query_postgis_database" then .ok (runQueryPostgis env tc d)
  else if tc.name = "zoom_to_bounds" then .ok (runZoomToBounds env tc d)
  else if tc.name ∈ env.gpToolNames then .ok (run_geoprocessing_tool env tc d)
  else .error .httpBadRequest

/-- A tool name the dispatch chain accepts.  The catalog offered to the
model is a subset of these (the OpenStreetMap tool is offered only when
its API key is configured, but its dispatch branch always exists). -/
def KnownTool (env : Env) (n : String) : Prop :=
  n = "new_layer_from_postgis" ∨ n = "add_layer_to_map" ∨ n = "query_duckdb_sql"
  ∨ n = "create_layer_style" ∨ n = "set_active_style"
  ∨ n = "download_from_openstreetmap" ∨ n = "query_postgis_database"
  ∨ n = "zoom_to_bounds" ∨ n ∈ env.gpToolNames

instance (env : Env) (n : String) : Decidable (KnownTool env n) := by
  unfold KnownTool; infer_instance

/-- An invocation whose dispatch cannot raise: its name is known and it is
not the `query_duckdb_sql` corner whose empty `layer_ids` list raises an
uncaught `IndexError`. -/
def WellFormedCall (env : Env) (tc : ToolCall) : Prop :=
  KnownTool env tc.name ∧ ¬(tc.name = "query_duckdb_sql" ∧ tc.args.layer_ids = some [])

/-- The sequential dispatch loop over one assistant message's tool calls
(lines 766-1631): each handled invocation appends exactly one tool-result
message, in order; an escaping exception aborts the remainder of the
round. -/
def dispatchCalls (env : Env) : List ToolCall → Db → Db × Option PyExc
  | [], db => (db, none)
  | tc :: rest, db =>
    match execTool env tc db.data with
    | .error e => (db, some e)
    | .ok (r, dta) =>
      dispatchCalls env rest ⟨dta, db.messages ++ [Msg.tool tc.id r]⟩

/-! ## The orchestration loop -/

inductive ExitKind where
  | cancelled
  | modelFailure
  | noToolCalls
  | roundsExhausted
  | exception (e : PyExc)
deriving DecidableEq

structure LoopResult where
  rds : Rds
  db : Db
  exit : ExitKind
  modelCalls : Nat
deriving DecidableEq

/-- The cancellation check at the top of each iteration (lines 449-451):
an externally arrived cancel request sets the flag; `redis.get` then
`redis.delete` consumes it. -/
def consumeCancel (env : Env) (i : Nat) (r : Rds) : Bool × Rds :=
  let r1 := if env.cancelBefore i then { r with cancelled := true } else r
  if r1.cancelled then (true, { r1 with cancelled := false }) else (false, r1)

/-- The `for i in range(25)` loop of `process_chat_interaction_task`
(lines 447-1631), with `fuel` the remaining iterations and `i` the round
index.  Each iteration: consume the cancel flag; call the model (an
exception breaks the loop after an ephemeral error notice); persist the
assistant message; break if it carries no tool calls; otherwise dispatch
the tool calls, an escaping exception propagating out of the loop. -/
def runRounds (env : Env) : Nat → Nat → Rds → Db → Nat → LoopResult
  | 0, _, r, db, calls => ⟨r, db, .roundsExhausted, calls⟩
  | fuel + 1, i, r, db, calls =>
    match consumeCancel env i r with
    | (true, r') => ⟨r', db, .cancelled, calls⟩
    | (false, r') =>
      match env.modelResp i with
      | .failure => ⟨r', db, .modelFailure, calls + 1⟩
      | .ok content tcs =>
        let db := { db with messages := db.messages ++ [Msg.assistant content tcs] }
        if tcs.isEmpty then ⟨r', db, .noToolCalls, calls + 1⟩
        else
          match dispatchCalls env tcs db with
          | (db', some e) => ⟨r', db', .exception e, calls + 1⟩
          | (db', none) => runRounds env fuel (i + 1) r' db' (calls + 1)

/-- Whether the final `redis.delete(f"map_lock:{map_id}")` (line 1636) is
reached: it follows the loop inside `async with async_conn(...)`, with no
`try`/`finally`, so an exception escaping dispatch skips it.  `async_conn`
is modelled as a non-suppressing connection scope, matching
`AsyncDatabaseConnection.__aexit__` in `src/structures.py`, which closes
the connection and re-raises. -/
def releasesLock : ExitKind → Bool
  | .exception _ => false
  | _ => true

/-- `process_chat_interaction_task` (lines 414-1636): run up to 25 rounds
starting from round 0, then delete the map lock unless an exception
propagated. -/
def process_chat_interaction_task (env : Env) (r : Rds) (db : Db) : LoopResult :=
  let res := runRounds env 25 0 r db 0
  if releasesLock res.exit then { res with rds := { res.rds with mapLock := false } } else res

/-! ## HTTP endpoints -/

inductive SendResp where
  | notFound
  | unauthorized
  | conflict
  | accepted
deriving DecidableEq

structure SendResult where
  resp : SendResp
  rds : Rds
  db : Db
  taskStarted : Bool
deriving DecidableEq

/-- `send_map_message` (lines 1649-1768): authenticate; reject with 409 if
`map_lock:{map_id}` is held, before any write; otherwise set the lock
(with a 60 s expiry, not modelled beyond presence), insert the provider's
system messages and the user's message, and enqueue the background
orchestration task. -/
def send_map_message (env : Env) (sysMsgs : List String) (userContent : String)
    (r : Rds) (db : Db) : SendResult :=
  match db.data.maps.find? (fun m => m.id == env.mapId && !m.softDeleted) with
  | none => ⟨.notFound, r, db, false⟩
  | some mrow =>
    if env.userId ≠ mrow.owner_uuid then ⟨.unauthorized, r, db, false⟩
    else if r.mapLock then ⟨.conflict, r, db, false⟩
    else
      let r := { r with mapLock := true }
      let db := { db with messages :=
        db.messages ++ sysMsgs.map Msg.system ++ [Msg.user userContent] }
      ⟨.accepted, r, db, true⟩

/-- `cancel_map_message` (lines 1776-1802): authenticate, then set
`messages:{map_id}:cancelled` (with a 5 min expiry, not modelled beyond
presence). -/
def cancel_map_message (env : Env) (r : Rds) (db : Db) : SendResp × Rds :=
  match db.data.maps.find? (fun m => m.id == env.mapId && !m.softDeleted) with
  | none => (.notFound, r)
  | some mrow =>
    if env.userId ≠ mrow.owner_uuid then (.unauthorized, r)
    else (.accepted, { r with cancelled := true })

/-! ## Concrete fixtures

Small concrete environments and states used to evaluate the embedding on
explicit inputs. -/

def layerL1 : Layer := ⟨"L00000000001", "user-1", some "roads", some "uploads/u1/P-1/L00000000001.fgb"⟩

def mapM1 : MapRow := ⟨"M-1", "user-1", "P-1", some [], false⟩

def mapM1att : MapRow := ⟨"M-1", "user-1", "P-1", some ["L00000000001"], false⟩

def dataM1 : Data := ⟨[layerL1], [mapM1], [⟨"conn-1", "user-1"⟩], [], []⟩

def dataM1att : Data := ⟨[layerL1], [mapM1att], [⟨"conn-1", "user-1"⟩], [], []⟩

def dbM1 : Db := ⟨dataM1, []⟩

def setStyleCallW : ToolCall :=
  ⟨"call-style", "set_active_style",
    { layer_id := some "L00000000001", style_id := some "S00000000001" }⟩

def duckEmptyCallA : ToolCall :=
  ⟨"call-duck-a", "query_duckdb_sql",
    { layer_ids := some [], sql_query := some "SELECT 1", head_n_rows := some 5 }⟩

def duckEmptyCallB : ToolCall :=
  ⟨"call-duck-b", "query_duckdb_sql",
    { layer_ids := some [], sql_query := some "SELECT name FROM t", head_n_rows := some 20 }⟩

def addCallW : ToolCall :=
  ⟨"call-add", "add_layer_to_map",
    { layer_id := some "L00000000001", new_name := some "Roads" }⟩

def unknownCallW : ToolCall := ⟨"call-unknown", "made_up_tool", {}⟩

def gpCallW : ToolCall := ⟨"call-gp", "qgis_buffer", { gpArgs := [("INPUT", "L00000000001")] }⟩

def baseEnv : Env where
  userId := "user-1"
  mapId := "M-1"
  modelResp := fun _ => .ok "" []
  cancelBefore := fun _ => false
  hasOsmKey := false
  gpToolNames := []
  gpToolDescr := fun _ => "buffers a vector layer"
  genLayerId := fun _ => "LGEN00000001"
  genStyleId := fun _ => "SGEN00000001"
  genOutputLayerId := fun _ => "LOUT00000001"
  uploadLayerId := fun _ => "LUPL00000001"
  newLayerOutcome := fun _ => .ok none false
  duckOutcome := fun _ => .ok "a,b" 1
  styleOutcome := fun _ => .valid
  pgqOutcome := fun _ => .rows []
  qgisOutcome := fun _ => .resp 200 [("OUTPUT", true)]
  osmOutcome := fun _ => .res "success" []

def envC1 : Env :=
  { baseEnv with modelResp := fun i => if i = 0 then .ok "r0" [duckEmptyCallA] else .ok "" [] }

def envC2 : Env :=
  { baseEnv with modelResp := fun i => if i = 0 then .ok "w" [setStyleCallW] else .ok "" [] }

def envC4 : Env :=
  { baseEnv with modelResp := fun i => if i = 0 then .ok "r0" [unknownCallW, addCallW] else .ok "" [] }

def envC5 : Env :=
  { baseEnv with modelResp := fun _ => .ok "w" [setStyleCallW] }

def envC6 : Env :=
  { baseEnv with modelResp := fun _ => .ok "w" [setStyleCallW],
                 cancelBefore := fun i => i == 1 }

def envC8 : Env := { baseEnv with gpToolNames := ["qgis_buffer"] }

def envC8a : Env := { envC8 with qgisOutcome := fun _ => .resp 500 [] }

def envC8b : Env := { envC8 with qgisOutcome := fun _ => .resp 200 [("OUTPUT", false)] }

/-! ## Helper lemmas -/

theorem find?_congr_all {α : Type} (p q : α → Bool) (h : ∀ x, p x = q x) :
    ∀ l : List α, l.find? p = l.find? q := by
  intro l
  induction l with
  | nil => rfl
  | cons a t ih =>
    simp only [List.find?]
    rw [h a]
    cases q a
    · exact ih
    · rfl

theorem addLayer_status_ne_error (a b c : String) :
    "Layer " ++ a ++ " (ID: " ++ b ++ ") added to map " ++ c ++ "." ≠ "error" := by
  intro h
  have hlen := congrArg String.length h
  have e1 : "Layer ".length = 6 := rfl
  have e2 : " (ID: ".length = 6 := rfl
  have e3 : ") added to map ".length = 15 := rfl
  have e4 : ".".length = 1 := rfl
  have e5 : "error".length = 5 := rfl
  simp only [String.length_append] at hlen
  omega

theorem attachLayerUpd_id (mid lid : String) (m : MapRow) :
    (attachLayerUpd mid lid m).id = m.id := by
  unfold attachLayerUpd
  split <;> rfl

theorem attachLayerUpd_absent (mid lid : String) (m : MapRow)
    (hid : m.id = mid) (h : lid ∉ m.layers.getD []) :
    attachLayerUpd mid lid m = { m with layers := some ((m.layers.getD []) ++ [lid]) } := by
  unfold attachLayerUpd
  rw [if_pos]
  simp [hid, h]

theorem attachLayerUpd_present (mid lid : String) (m : MapRow)
    (h : lid ∈ m.layers.getD []) :
    attachLayerUpd mid lid m = m := by
  unfold attachLayerUpd
  rw [if_neg]
  cases hly : m.layers with
  | none => rw [hly] at h; simp at h
  | some xs =>
    rw [hly] at h
    simp only [Option.getD_some] at h
    simp [hly, h]

theorem attachLayerUpd_other (mid lid : String) (m : MapRow) (h : m.id ≠ mid) :
    attachLayerUpd mid lid m = m := by
  unfold attachLayerUpd
  rw [if_neg]
  simp [h]

/-- Dispatch of an invocation whose name is in the chain and which avoids
the empty-`layer_ids` corner never raises. -/
theorem execTool_ok (env : Env) (tc : ToolCall) (d : Data)
    (h : WellFormedCall env tc) : ∃ r d', execTool env tc d = .ok (r, d') := by
  obtain ⟨hk, hduck⟩ := h
  unfold execTool
  split_ifs with h1 h2 h3 h4 h5 h6 h7 h8 h9 <;>
    try exact ⟨_, _, rfl⟩
  · unfold runQueryDuckdb
    rw [if_neg (fun he => hduck ⟨h3, he⟩)]
    exact ⟨_, _, rfl⟩
  · exfalso
    rcases hk with h | h | h | h | h | h | h | h | h <;> simp_all

/-- Dispatching a list of well-formed invocations never aborts. -/
theorem dispatchCalls_wf_none (env : Env) :
    ∀ (tcs : List ToolCall) (db : Db),
    (∀ tc ∈ tcs, WellFormedCall env tc) →
    (dispatchCalls env tcs db).2 = none := by
  intro tcs
  induction tcs with
  | nil => intro db _; rfl
  | cons tc rest ih =>
    intro db hwf
    obtain ⟨r, d', hE⟩ := execTool_ok env tc db.data (hwf tc (by simp))
    simp only [dispatchCalls, hE]
    exact ih _ (fun x hx => hwf x (by simp [hx]))

/-- If a dispatch completes without exception, it appends exactly one
tool-result message per invocation, keyed by the invocation ids in
emission order, and nothing else, to the message log. -/
theorem dispatchCalls_messages (env : Env) :
    ∀ (tcs : List ToolCall) (db db' : Db),
    dispatchCalls env tcs db = (db', none) →
    ∃ rs : List ToolRes, rs.length = tcs.length ∧
      db'.messages = db.messages ++ List.zipWith (fun tc r => Msg.tool tc.id r) tcs rs := by
  intro tcs
  induction tcs with
  | nil =>
    intro db db' h
    simp only [dispatchCalls, Prod.mk.injEq] at h
    exact ⟨[], rfl, by simp [← h.1]⟩
  | cons tc rest ih =>
    intro db db' h
    cases hE : execTool env tc db.data with
    | error e =>
      rw [dispatchCalls, hE] at h
      simp at h
    | ok p =>
      obtain ⟨r, dta⟩ := p
      rw [dispatchCalls, hE] at h
      obtain ⟨rs, hlen, hmsg⟩ := ih ⟨dta, db.messages ++ [Msg.tool tc.id r]⟩ db' h
      refine ⟨r :: rs, by simp [hlen], ?_⟩
      simpa [List.append_assoc] using hmsg

/-- A full run of `fuel` rounds, each with a successful model response
carrying well-formed tool calls and no cancellation, exits by budget
exhaustion after exactly `fuel` model calls. -/
theorem runRounds_budget (env : Env) :
    ∀ (fuel i : Nat) (r : Rds) (db : Db) (calls : Nat),
    r.cancelled = false →
    (∀ j, j < fuel → env.cancelBefore (i + j) = false) →
    (∀ j, j < fuel → ∃ c tcs, env.modelResp (i + j) = .ok c tcs ∧ tcs ≠ [] ∧
      ∀ tc ∈ tcs, WellFormedCall env tc) →
    (runRounds env fuel i r db calls).exit = .roundsExhausted ∧
    (runRounds env fuel i r db calls).modelCalls = calls + fuel := by
  intro fuel
  induction fuel with
  | zero => intro i r db calls _ _ _; exact ⟨rfl, rfl⟩
  | succ fuel ih =>
    intro i r db calls hc hcb hm
    have hcb0 : env.cancelBefore i = false := by simpa using hcb 0 (Nat.succ_pos _)
    have hm0 := hm 0 (Nat.succ_pos _)
    rw [Nat.add_zero] at hm0
    obtain ⟨c, tcs, hok, hne, hwf⟩ := hm0
    have hcons : consumeCancel env i r = (false, r) := by
      simp [consumeCancel, hcb0, hc]
    cases tcs with
    | nil => exact absurd rfl hne
    | cons t ts =>
      have h2 := dispatchCalls_wf_none env (t :: ts)
        { db with messages := db.messages ++ [Msg.assistant c (t :: ts)] } hwf
      cases hD : dispatchCalls env (t :: ts)
          { db with messages := db.messages ++ [Msg.assistant c (t :: ts)] } with
      | mk db' e =>
        rw [hD] at h2
        subst h2
        have step : runRounds env (fuel + 1) i r db calls =
            runRounds env fuel (i + 1) r db' (calls + 1) := by
          rw [runRounds]
          rw [hcons, hok]
          simp only [List.isEmpty_cons, Bool.false_eq_true, if_false]
          rw [hD]
        rw [step]
        have hh := ih (i + 1) r db' (calls + 1) hc
          (fun j hj => by
            have h3 := hcb (j + 1) (by omega)
            rw [show i + (j + 1) = i + 1 + j by omega] at h3
            exact h3)
          (fun j hj => by
            have h3 := hm (j + 1) (by omega)
            rw [show i + (j + 1) = i + 1 + j by omega] at h3
            exact h3)
        exact ⟨hh.1, by rw [hh.2]; omega⟩

/-! ## Claim theorems -/

/-- C1: the claim says the resource lock is deleted exactly once on every
terminal path, including any error raised while dispatching tools.
Evaluating the embedded loop at a failing input refutes this for the
code: a round whose dispatch raises an uncaught exception (here the
`IndexError` from `tool_args.get("layer_ids", [None])[0]` on an empty
list) propagates out of `process_chat_interaction_task` before the
`redis.delete(f"map_lock:...")` line, so the lock is still present right
after termination. -/
theorem c1_dispatch_exception_keeps_lock :
    (process_chat_interaction_task envC1 ⟨true, false⟩ dbM1).exit = .exception .indexError ∧
    (process_chat_interaction_task envC1 ⟨true, false⟩ dbM1).rds.mapLock = true :=
  ⟨rfl, rfl⟩

/-- C2: whenever a round's dispatch completes (which is the only way the
loop issues the next model call), every tool invocation of that round's
assistant message has received exactly one tool-result message, appended
in emission order; and the next model call is then issued on exactly that
extended log. -/
theorem c2_one_result_per_invocation_before_next_call :
    (∀ (env : Env) (tcs : List ToolCall) (db db' : Db),
      dispatchCalls env tcs db = (db', none) →
      ∃ rs : List ToolRes, rs.length = tcs.length ∧
        db'.messages = db.messages ++ List.zipWith (fun tc r => Msg.tool tc.id r) tcs rs) ∧
    (∀ (env : Env) (fuel i : Nat) (r r' : Rds) (db db' : Db) (calls : Nat)
      (content : String) (tcs : List ToolCall),
      consumeCancel env i r = (false, r') →
      env.modelResp i = .ok content tcs →
      tcs ≠ [] →
      dispatchCalls env tcs
        { db with messages := db.messages ++ [Msg.assistant content tcs] } = (db', none) →
      runRounds env (fuel + 1) i r db calls = runRounds env fuel (i + 1) r' db' (calls + 1)) := by
  constructor
  · exact dispatchCalls_messages
  · intro env fuel i r r' db db' calls content tcs hcons hok hne hD
    cases tcs with
    | nil => exact absurd rfl hne
    | cons t ts =>
      rw [runRounds, hcons, hok]
      simp only [List.isEmpty_cons, Bool.false_eq_true, if_false]
      rw [hD]

/-- Closed witness for C2 at a concrete one-invocation round. -/
theorem c2_one_result_per_invocation_before_next_call_witness :
    (∃ rs : List ToolRes, rs.length = 1 ∧
      (dispatchCalls envC2 [setStyleCallW] dbM1).1.messages =
        dbM1.messages ++
          List.zipWith (fun tc r => Msg.tool tc.id r) [setStyleCallW] rs) ∧
    runRounds envC2 2 0 ⟨true, false⟩ dbM1 0 =
      runRounds envC2 1 1 ⟨true, false⟩
        (dispatchCalls envC2 [setStyleCallW]
          { dbM1 with messages :=
              dbM1.messages ++ [Msg.assistant "w" [setStyleCallW]] }).1 1 := by
  constructor
  · exact c2_one_result_per_invocation_before_next_call.1 envC2 [setStyleCallW] dbM1
      (dispatchCalls envC2 [setStyleCallW] dbM1).1 rfl
  · exact c2_one_result_per_invocation_before_next_call.2 envC2 1 0
      ⟨true, false⟩ ⟨true, false⟩ dbM1
      (dispatchCalls envC2 [setStyleCallW]
        { dbM1 with messages := dbM1.messages ++ [Msg.assistant "w" [setStyleCallW]] }).1
      0 "w" [setStyleCallW] rfl rfl (by simp) rfl

/-- C3: the claim says no tool-level failure lets an exception escape the
handler boundary.  Evaluating the dispatcher at a failing input refutes
this for the code: a `query_duckdb_sql` invocation whose `layer_ids`
argument is the empty list raises an uncaught `IndexError` at
`tool_args.get("layer_ids", [None])[0]` (before the branch reaches its
`try`), so no error `ToolResult` is appended and the round aborts. -/
theorem c3_duckdb_empty_layer_ids_escapes :
    (dispatchCalls baseEnv [duckEmptyCallB] dbM1).2 = some .indexError ∧
    (dispatchCalls baseEnv [duckEmptyCallB] dbM1).1.messages = dbM1.messages :=
  ⟨rfl, rfl⟩

/-- C4: the claim says that on an unknown tool name the round aborts but
the loop terminates cleanly, releasing the lock.  Evaluating the embedded
loop at a failing input shows the abort (the assistant message is the only
message persisted; the invocation after the unknown one is never
dispatched) but refutes the clean termination: the `HTTPException(400)`
propagates and the lock is still held afterwards. -/
theorem c4_unknown_tool_aborts_without_release :
    (process_chat_interaction_task envC4 ⟨true, false⟩ dbM1).exit = .exception .httpBadRequest ∧
    (process_chat_interaction_task envC4 ⟨true, false⟩ dbM1).rds.mapLock = true ∧
    (process_chat_interaction_task envC4 ⟨true, false⟩ dbM1).db.messages =
      dbM1.messages ++ [Msg.assistant "r0" [unknownCallW, addCallW]] :=
  ⟨rfl, rfl, rfl⟩

/-- C5: a run in which every model response succeeds and carries at least
one well-formed tool invocation, with no cancellation, performs exactly 25
model calls, exits by budget exhaustion (never a 26th round), and still
releases the lock. -/
theorem c5_round_budget_25 (env : Env) (r : Rds) (db : Db)
    (hc : r.cancelled = false)
    (hcb : ∀ i, i < 25 → env.cancelBefore i = false)
    (hm : ∀ i, i < 25 → ∃ c tcs, env.modelResp i = .ok c tcs ∧ tcs ≠ [] ∧
      ∀ tc ∈ tcs, WellFormedCall env tc) :
    (process_chat_interaction_task env r db).modelCalls = 25 ∧
    (process_chat_interaction_task env r db).exit = .roundsExhausted ∧
    (process_chat_interaction_task env r db).rds.mapLock = false := by
  have h := runRounds_budget env 25 0 r db 0 hc
    (fun j hj => by simpa using hcb j (by omega))
    (fun j hj => by simpa using hm j (by omega))
  have hrl : releasesLock (runRounds env 25 0 r db 0).exit = true := by rw [h.1]; rfl
  refine ⟨?_, ?_, ?_⟩
  · have h2 := h.2
    unfold process_chat_interaction_task
    simp only [hrl, if_true]
    omega
  · unfold process_chat_interaction_task
    simp only [hrl, if_true]
    exact h.1
  · unfold process_chat_interaction_task
    simp only [hrl, if_true]

/-- Closed witness for C5: a concrete environment that always answers with
one `set_active_style` invocation runs exactly 25 rounds and ends with the
lock deleted. -/
theorem c5_round_budget_25_witness :
    (process_chat_interaction_task envC5 ⟨true, false⟩ dbM1).modelCalls = 25 ∧
    (process_chat_interaction_task envC5 ⟨true, false⟩ dbM1).exit = .roundsExhausted ∧
    (process_chat_interaction_task envC5 ⟨true, false⟩ dbM1).rds.mapLock = false :=
  c5_round_budget_25 envC5 ⟨true, false⟩ dbM1 rfl (fun _ _ => rfl)
    (fun _ _ => ⟨"w", [setStyleCallW], rfl, by simp, fun tc htc => by
      simp only [List.mem_singleton] at htc
      subst htc
      exact ⟨by decide, by decide⟩⟩)

/-- C6: the cancellation flag is consumed at the top of an iteration
before any model or tool work: if it is set (or an external cancel request
has arrived) at that point, the loop terminates immediately with the flag
cleared, touching neither the message log nor the model-call count; and in
the concrete scenario where cancellation is requested after round 0 but
before round 1 begins, the whole task performs exactly one model call and
releases the lock. -/
theorem c6_cancellation_consumed_at_round_start :
    (∀ (env : Env) (fuel i : Nat) (r : Rds) (db : Db) (calls : Nat),
      r.cancelled = true ∨ env.cancelBefore i = true →
      runRounds env (fuel + 1) i r db calls = ⟨⟨r.mapLock, false⟩, db, .cancelled, calls⟩) ∧
    (∀ (env : Env) (r : Rds) (db : Db),
      r.cancelled = false → env.cancelBefore 0 = false → env.cancelBefore 1 = true →
      (∃ c tcs, env.modelResp 0 = .ok c tcs ∧ tcs ≠ [] ∧ ∀ tc ∈ tcs, WellFormedCall env tc) →
      (process_chat_interaction_task env r db).modelCalls = 1 ∧
      (process_chat_interaction_task env r db).exit = .cancelled ∧
      (process_chat_interaction_task env r db).rds.mapLock = false ∧
      (process_chat_interaction_task env r db).rds.cancelled = false) := by
  constructor
  · intro env fuel i r db calls h
    have hcons : consumeCancel env i r = (true, ⟨r.mapLock, false⟩) := by
      rcases h with h | h
      · by_cases hcb : env.cancelBefore i <;> simp [consumeCancel, h, hcb]
      · simp [consumeCancel, h]
    rw [runRounds, hcons]
  · intro env r db hc hcb0 hcb1 hm
    obtain ⟨c, tcs, hok, hne, hwf⟩ := hm
    have hcons : consumeCancel env 0 r = (false, r) := by
      simp [consumeCancel, hcb0, hc]
    cases tcs with
    | nil => exact absurd rfl hne
    | cons t ts =>
      have h2 := dispatchCalls_wf_none env (t :: ts)
        { db with messages := db.messages ++ [Msg.assistant c (t :: ts)] } hwf
      cases hD : dispatchCalls env (t :: ts)
          { db with messages := db.messages ++ [Msg.assistant c (t :: ts)] } with
      | mk db' e =>
        rw [hD] at h2
        subst h2
        have step1 : runRounds env 25 0 r db 0 = runRounds env 24 1 r db' 1 := by
          rw [show (25 : Nat) = 24 + 1 from rfl, runRounds, hcons, hok]
          simp only [List.isEmpty_cons, Bool.false_eq_true, if_false]
          rw [hD]
        have hcons1 : consumeCancel env 1 r = (true, ⟨r.mapLock, false⟩) := by
          simp [consumeCancel, hcb1]
        have step2 : runRounds env 24 1 r db' 1 = ⟨⟨r.mapLock, false⟩, db', .cancelled, 1⟩ := by
          rw [show (24 : Nat) = 23 + 1 from rfl, runRounds, hcons1]
        have hrun : runRounds env 25 0 r db 0 = ⟨⟨r.mapLock, false⟩, db', .cancelled, 1⟩ :=
          step1.trans step2
        unfold process_chat_interaction_task
        rw [hrun]
        exact ⟨rfl, rfl, rfl, rfl⟩

/-- Closed witness for C6: both the immediate-termination behaviour with a
set flag and the request-before-round-2 scenario, at concrete inputs. -/
theorem c6_cancellation_consumed_at_round_start_witness :
    runRounds envC6 1 5 ⟨true, true⟩ dbM1 3 = ⟨⟨true, false⟩, dbM1, .cancelled, 3⟩ ∧
    ((process_chat_interaction_task envC6 ⟨true, false⟩ dbM1).modelCalls = 1 ∧
      (process_chat_interaction_task envC6 ⟨true, false⟩ dbM1).exit = .cancelled ∧
      (process_chat_interaction_task envC6 ⟨true, false⟩ dbM1).rds.mapLock = false ∧
      (process_chat_interaction_task envC6 ⟨true, false⟩ dbM1).rds.cancelled = false) := by
  constructor
  · exact c6_cancellation_consumed_at_round_start.1 envC6 0 5 ⟨true, true⟩ dbM1 3 (Or.inl rfl)
  · exact c6_cancellation_consumed_at_round_start.2 envC6 ⟨true, false⟩ dbM1 rfl rfl rfl
      ⟨"w", [setStyleCallW], rfl, by simp, fun tc htc => by
        simp only [List.mem_singleton] at htc
        subst htc
        exact ⟨by decide, by decide⟩⟩

/-- C7: `send_map_message` on an existing map owned by the caller: if the
map lock is already held the caller gets a 409 conflict, no background
task is started and no message is appended (the whole state is
unchanged); otherwise the lock is set, the provider's system messages and
the user message are appended, and the background loop is started. -/
theorem c7_send_conflict_or_start (env : Env) (sysMsgs : List String)
    (userContent : String) (r : Rds) (db : Db) (mrow : MapRow)
    (hfind : db.data.maps.find? (fun m => m.id == env.mapId && !m.softDeleted) = some mrow)
    (hown : env.userId = mrow.owner_uuid) :
    (r.mapLock = true →
      send_map_message env sysMsgs userContent r db = ⟨.conflict, r, db, false⟩) ∧
    (r.mapLock = false →
      (send_map_message env sysMsgs userContent r db).resp = .accepted ∧
      (send_map_message env sysMsgs userContent r db).rds.mapLock = true ∧
      (send_map_message env sysMsgs userContent r db).taskStarted = true ∧
      (send_map_message env sysMsgs userContent r db).db.messages =
        db.messages ++ sysMsgs.map Msg.system ++ [Msg.user userContent]) := by
  unfold send_map_message
  rw [hfind]
  simp only [hown, ne_eq, not_true_eq_false, if_false]
  constructor
  · intro h
    simp [h]
  · intro h
    simp [h]

/-- Closed witness for C7 at a concrete map and caller, in both the
locked and the unlocked state. -/
theorem c7_send_conflict_or_start_witness :
    send_map_message baseEnv ["sys"] "hello" ⟨true, false⟩ dbM1 =
      ⟨.conflict, ⟨true, false⟩, dbM1, false⟩ ∧
    ((send_map_message baseEnv ["sys"] "hello" ⟨false, false⟩ dbM1).resp = .accepted ∧
      (send_map_message baseEnv ["sys"] "hello" ⟨false, false⟩ dbM1).rds.mapLock = true ∧
      (send_map_message baseEnv ["sys"] "hello" ⟨false, false⟩ dbM1).taskStarted = true ∧
      (send_map_message baseEnv ["sys"] "hello" ⟨false, false⟩ dbM1).db.messages =
        dbM1.messages ++ ["sys"].map Msg.system ++ [Msg.user "hello"]) := by
  constructor
  · exact (c7_send_conflict_or_start baseEnv ["sys"] "hello" ⟨true, false⟩ dbM1 mapM1
      rfl rfl).1 rfl
  · exact (c7_send_conflict_or_start baseEnv ["sys"] "hello" ⟨false, false⟩ dbM1 mapM1
      rfl rfl).2 rfl

/-- C8: for a geoprocessing invocation whose inputs resolve and whose map
row exists: a non-success remote status, or a declared output without an
uploaded confirmation, yields an error result with the tables untouched
(no new layer); a fully-successful remote response yields a success result
and exactly one new layer per declared output, created through
`internal_upload_layer`, the ingestion path shared with direct uploads. -/
theorem c8_geoprocessing_resource_creation (env : Env) (tc : ToolCall) (d : Data)
    (mrow : MapRow)
    (hres : resolveInputs d env.userId
      (tc.args.gpArgs ++ [("map_id", env.mapId), ("user_uuid", env.userId)]) = .ok ())
    (hmap : d.maps.find? (fun m => m.id == env.mapId) = some mrow) :
    (∀ code uploaded, env.qgisOutcome tc.id = .resp code uploaded → code ≠ 200 →
      (run_geoprocessing_tool env tc d).1.status = "error" ∧
      (run_geoprocessing_tool env tc d).2 = d) ∧
    (∀ uploaded, env.qgisOutcome tc.id = .resp 200 uploaded →
      (lookupAssoc uploaded "OUTPUT").getD false = false →
      (run_geoprocessing_tool env tc d).1.status = "error" ∧
      (run_geoprocessing_tool env tc d).2 = d) ∧
    (∀ uploaded, env.qgisOutcome tc.id = .resp 200 uploaded →
      (lookupAssoc uploaded "OUTPUT").getD false = true →
      (run_geoprocessing_tool env tc d).1.status = "success" ∧
      (∃ fname key, (run_geoprocessing_tool env tc d).2 =
        internal_upload_layer env.userId env.mapId (env.uploadLayerId tc.id) fname key d) ∧
      (run_geoprocessing_tool env tc d).2.mapLayers.length =
        d.mapLayers.length + declaredOutputs.length) := by
  refine ⟨?_, ?_, ?_⟩
  · intro code uploaded hq hcode
    constructor
    · simp only [run_geoprocessing_tool, hres, hmap, hq]
      simp [hcode]
    · simp only [run_geoprocessing_tool, hres, hmap, hq]
      simp [hcode]
  · intro uploaded hq hup
    constructor
    · simp only [run_geoprocessing_tool, hres, hmap, hq, declaredOutputs]
      simp [hup]
    · simp only [run_geoprocessing_tool, hres, hmap, hq, declaredOutputs]
      simp [hup]
  · intro uploaded hq hup
    refine ⟨?_, ?_, ?_⟩
    · simp only [run_geoprocessing_tool, hres, hmap, hq, declaredOutputs]
      simp [hup]
    · simp only [run_geoprocessing_tool, hres, hmap, hq]
      simp [declaredOutputs, hup]
      exact ⟨_, _, rfl⟩
    · simp only [run_geoprocessing_tool, hres, hmap, hq, declaredOutputs]
      simp [hup, internal_upload_layer, mapsAppendIfAbsent]

/-- Closed witness for C8 at a concrete call, exercising all three remote
outcomes (non-success status, missing uploaded confirmation, and full
success). -/
theorem c8_geoprocessing_resource_creation_witness :
    ((run_geoprocessing_tool envC8a gpCallW dataM1).1.status = "error" ∧
      (run_geoprocessing_tool envC8a gpCallW dataM1).2 = dataM1) ∧
    ((run_geoprocessing_tool envC8b gpCallW dataM1).1.status = "error" ∧
      (run_geoprocessing_tool envC8b gpCallW dataM1).2 = dataM1) ∧
    ((run_geoprocessing_tool envC8 gpCallW dataM1).1.status = "success" ∧
      (∃ fname key, (run_geoprocessing_tool envC8 gpCallW dataM1).2 =
        internal_upload_layer "user-1" "M-1" "LUPL00000001" fname key dataM1) ∧
      (run_geoprocessing_tool envC8 gpCallW dataM1).2.mapLayers.length =
        dataM1.mapLayers.length + declaredOutputs.length) := by
  refine ⟨?_, ?_, ?_⟩
  · exact (c8_geoprocessing_resource_creation envC8a gpCallW dataM1 mapM1
      rfl rfl).1 500 [] rfl (by decide)
  · exact (c8_geoprocessing_resource_creation envC8b gpCallW dataM1 mapM1
      rfl rfl).2.1 [("OUTPUT", false)] rfl rfl
  · exact (c8_geoprocessing_resource_creation envC8 gpCallW dataM1 mapM1
      rfl rfl).2.2 [("OUTPUT", true)] rfl rfl

/-- The rename `UPDATE` of `add_layer_to_map` commutes with ownership
lookup: renaming changes neither `layer_id` nor `owner_uuid`. -/
theorem find?_rename (ls : List Layer) (uid lid tgt : String) (nn : Option String) :
    (ls.map (fun x => if x.layer_id == tgt then { x with name := nn } else x)).find?
        (fun x => x.layer_id == lid && x.owner_uuid == uid) =
      (ls.find? (fun x => x.layer_id == lid && x.owner_uuid == uid)).map
        (fun x => if x.layer_id == tgt then { x with name := nn } else x) := by
  rw [List.find?_map]
  congr 1
  apply find?_congr_all
  intro x
  by_cases hx : x.layer_id == tgt <;> simp [Function.comp, hx]

/-- Evaluation of the `add_layer_to_map` handler when the referenced layer
exists and is owned by the caller. -/
theorem runAdd_success (env : Env) (cid lid : String) (nn : Option String) (d : Data)
    (l : Layer) (h : findOwnedLayer d env.userId (some lid) = some l) :
    runAddLayerToMap env ⟨cid, "add_layer_to_map", { layer_id := some lid, new_name := nn }⟩ d =
      (⟨"Layer " ++ optStr nn ++ " (ID: " ++ l.layer_id ++ ") added to map "
          ++ env.mapId ++ ".", "layer added"⟩,
        mapsAppendIfAbsent
          { d with mapLayers := d.mapLayers.map (fun x =>
              if x.layer_id == l.layer_id then { x with name := nn } else x) }
          env.mapId l.layer_id) := by
  unfold runAddLayerToMap
  simp only [h]

/-- C9: attaching a layer to a map is an idempotent set-insertion: after
two `add_layer_to_map` invocations naming the same owned layer, the
identifier appears exactly once in the map's layer list, and the second
invocation reports a non-error result. -/
theorem c9_attach_idempotent (env : Env) (cid1 cid2 lid : String) (nn1 nn2 : Option String)
    (d : Data) (l : Layer)
    (h1 : findOwnedLayer d env.userId (some lid) = some l)
    (h3 : ∀ m ∈ d.maps, m.id = env.mapId → lid ∉ m.layers.getD []) :
    (∀ m2 ∈ (runAddLayerToMap env ⟨cid2, "add_layer_to_map", { layer_id := some lid, new_name := nn2 }⟩
        (runAddLayerToMap env ⟨cid1, "add_layer_to_map", { layer_id := some lid, new_name := nn1 }⟩ d).2).2.maps,
      m2.id = env.mapId → (m2.layers.getD []).count lid = 1) ∧
    (runAddLayerToMap env ⟨cid2, "add_layer_to_map", { layer_id := some lid, new_name := nn2 }⟩
        (runAddLayerToMap env ⟨cid1, "add_layer_to_map", { layer_id := some lid, new_name := nn1 }⟩ d).2).1.status ≠ "error" := by
  have hpred := List.find?_some
    (show d.mapLayers.find? (fun x => x.layer_id == lid && x.owner_uuid == env.userId)
        = some l from h1)
  simp only [Bool.and_eq_true, beq_iff_eq] at hpred
  obtain ⟨hlid, hown⟩ := hpred
  subst hlid
  have e1 := runAdd_success env cid1 l.layer_id nn1 d l h1
  rw [e1]
  have h1' : findOwnedLayer
      (mapsAppendIfAbsent
        { d with mapLayers := d.mapLayers.map (fun x =>
            if x.layer_id == l.layer_id then { x with name := nn1 } else x) }
        env.mapId l.layer_id)
      env.userId (some l.layer_id) = some { l with name := nn1 } := by
    show (d.mapLayers.map (fun x =>
        if x.layer_id == l.layer_id then { x with name := nn1 } else x)).find?
        (fun x => x.layer_id == l.layer_id && x.owner_uuid == env.userId) = _
    rw [find?_rename]
    rw [show d.mapLayers.find?
        (fun x => x.layer_id == l.layer_id && x.owner_uuid == env.userId) = some l from h1]
    simp
  have e2 := runAdd_success env cid2 l.layer_id nn2 _ _ h1'
  rw [e2]
  constructor
  · intro m2 hm2 hid
    simp only [mapsAppendIfAbsent] at hm2
    rw [List.mem_map] at hm2
    obtain ⟨m1, hm1, rfl⟩ := hm2
    rw [List.mem_map] at hm1
    obtain ⟨m0, hm0, rfl⟩ := hm1
    rw [attachLayerUpd_id, attachLayerUpd_id] at hid
    have hnot := h3 m0 hm0 hid
    rw [attachLayerUpd_absent _ _ _ hid hnot]
    rw [attachLayerUpd_present]
    · simp only [Option.getD_some]
      rw [List.count_append, List.count_eq_zero.mpr hnot]
      simp
    · simp
  · exact addLayer_status_ne_error _ _ _

/-- C10: `add_layer_to_map` on an existing owned layer unconditionally
overwrites the layer's stored name with `new_name`; when the layer is
already attached to the map, the map's layer list is left unchanged, so a
repeated attach is not side-effect-free — it renames the layer. -/
theorem c10_repeated_attach_renames (env : Env) (cid lid : String) (nn : String)
    (d : Data) (l : Layer)
    (h1 : findOwnedLayer d env.userId (some lid) = some l)
    (h3 : ∀ m ∈ d.maps, m.id = env.mapId → lid ∈ m.layers.getD []) :
    (runAddLayerToMap env ⟨cid, "add_layer_to_map", { layer_id := some lid, new_name := some nn }⟩ d).2.mapLayers =
      d.mapLayers.map (fun x => if x.layer_id == l.layer_id then { x with name := some nn } else x) ∧
    (runAddLayerToMap env ⟨cid, "add_layer_to_map", { layer_id := some lid, new_name := some nn }⟩ d).2.maps = d.maps ∧
    (∀ x ∈ (runAddLayerToMap env ⟨cid, "add_layer_to_map", { layer_id := some lid, new_name := some nn }⟩ d).2.mapLayers,
      x.layer_id = lid → x.name = some nn) := by
  have hpred := List.find?_some
    (show d.mapLayers.find? (fun x => x.layer_id == lid && x.owner_uuid == env.userId)
        = some l from h1)
  simp only [Bool.and_eq_true, beq_iff_eq] at hpred
  obtain ⟨hlid, hown⟩ := hpred
  subst hlid
  have e1 := runAdd_success env cid l.layer_id (some nn) d l h1
  rw [e1]
  refine ⟨rfl, ?_, ?_⟩
  · show List.map (attachLayerUpd env.mapId l.layer_id) d.maps = d.maps
    have hall : ∀ m ∈ d.maps, attachLayerUpd env.mapId l.layer_id m = m := by
      intro m hm
      by_cases hidm : m.id = env.mapId
      · exact attachLayerUpd_present _ _ _ (h3 m hm hidm)
      · exact attachLayerUpd_other _ _ _ hidm
    rw [List.map_congr_left hall]
    simp
  · intro x hx hxid
    have hx' : x ∈ d.mapLayers.map
        (fun y => if y.layer_id == l.layer_id then { y with name := some nn } else y) := hx
    obtain ⟨x0, hx0, rfl⟩ := List.mem_map.mp hx'
    by_cases hc : x0.layer_id == l.layer_id
    · rw [if_pos hc]
    · rw [if_neg hc] at hxid ⊢
      exact absurd (by simp [hxid]) hc

/-- Closed witness for C9: attaching the concrete layer twice to the
concrete map leaves it listed exactly once, with a non-error second
result. -/
theorem c9_attach_idempotent_witness :
    (∀ m2 ∈ (runAddLayerToMap baseEnv ⟨"c2", "add_layer_to_map", { layer_id := some "L00000000001", new_name := some "B" }⟩
        (runAddLayerToMap baseEnv ⟨"c1", "add_layer_to_map", { layer_id := some "L00000000001", new_name := some "A" }⟩ dataM1).2).2.maps,
      m2.id = baseEnv.mapId → (m2.layers.getD []).count "L00000000001" = 1) ∧
    (runAddLayerToMap baseEnv ⟨"c2", "add_layer_to_map", { layer_id := some "L00000000001", new_name := some "B" }⟩
        (runAddLayerToMap baseEnv ⟨"c1", "add_layer_to_map", { layer_id := some "L00000000001", new_name := some "A" }⟩ dataM1).2).1.status ≠ "error" :=
  c9_attach_idempotent baseEnv "c1" "c2" "L00000000001" (some "A") (some "B")
    dataM1 layerL1 rfl (by decide)

/-- Closed witness for C10: re-attaching the concrete already-attached
layer renames it while leaving the map's layer list unchanged. -/
theorem c10_repeated_attach_renames_witness :
    (runAddLayerToMap baseEnv ⟨"c3", "add_layer_to_map", { layer_id := some "L00000000001", new_name := some "Renamed" }⟩ dataM1att).2.mapLayers =
      dataM1att.mapLayers.map (fun x => if x.layer_id == layerL1.layer_id then { x with name := some "Renamed" } else x) ∧
    (runAddLayerToMap baseEnv ⟨"c3", "add_layer_to_map", { layer_id := some "L00000000001", new_name := some "Renamed" }⟩ dataM1att).2.maps = dataM1att.maps ∧
    (∀ x ∈ (runAddLayerToMap baseEnv ⟨"c3", "add_layer_to_map", { layer_id := some "L00000000001", new_name := some "Renamed" }⟩ dataM1att).2.mapLayers,
      x.layer_id = "L00000000001" → x.name = some "Renamed") :=
  c10_repeated_attach_renames baseEnv "c3" "L00000000001" "Renamed" dataM1att layerL1
    rfl (by decide)

end Mundi
